import Mathlib

/-!
Shallow embedding of `Framework/Source/Graphics/Paths/PathEditor.cpp` (Falcor).

The editor panel mutates an externally owned `ObjectPath` through immediate-mode
GUI widgets and fires three callbacks.  Floats are idealised as rationals.
Callbacks are recorded as an event trace in invocation order; the widgets a
render pass draws are recorded as a widget trace.  The external math helpers
(`createMatrixFromLookAt` / `extractEulerAngleXYZ` / `degrees`, and
`radians` / `yawPitchRoll`) live outside this file's sources and are abstracted
as function parameters `euler` and `rotCols`.  An out-of-range keyframe read,
which would be an invalid access in the C++ code, is modelled by `Option`:
`none` means the render pass performed an invalid-index access.
-/

namespace FalcorPathEditor

/-- 3D vector over ℚ, modelling glm vec3 (floats idealised as rationals). -/
structure Vec3 where
  x : ℚ
  y : ℚ
  z : ℚ
  deriving DecidableEq, Repr

instance : Add Vec3 := ⟨fun a b => ⟨a.x + b.x, a.y + b.y, a.z + b.z⟩⟩

instance : Sub Vec3 := ⟨fun a b => ⟨a.x - b.x, a.y - b.y, a.z - b.z⟩⟩

/-- A keyframe of the path: time plus camera pose. -/
structure Keyframe where
  time : ℚ
  position : Vec3
  target : Vec3
  up : Vec3
  deriving DecidableEq, Repr

/-- Modelled from the spec: the ObjectPath data — a name, a loop flag and keyframes
kept ordered by time.  `ObjectPath.cpp` itself is not among the sources; only the
capability set described in the spec is used here. -/
structure Path where
  name : String
  loop : Bool
  frames : List Keyframe
  deriving DecidableEq, Repr

namespace Path

/-- getKeyFrame: indexed read.  `none` models the out-of-range access that would be
invalid in the C++ code. -/
def getKeyFrame? (pa : Path) (i : ℕ) : Option Keyframe :=
  pa.frames.get? i

/-- Update the keyframe at index `i` with `f`; no-op when out of range (the editor
only reaches the setters with an in-range index, established by its guards). -/
def setAt : List Keyframe → ℕ → (Keyframe → Keyframe) → List Keyframe
  | [], _, _ => []
  | k :: ks, 0, f => f k :: ks
  | k :: ks, i + 1, f => k :: setAt ks i f

/-- setFramePosition(i, v). -/
def setFramePosition (pa : Path) (i : ℕ) (v : Vec3) : Path :=
  { pa with frames := setAt pa.frames i fun kf => { kf with position := v } }

/-- setFrameTarget(i, v). -/
def setFrameTarget (pa : Path) (i : ℕ) (v : Vec3) : Path :=
  { pa with frames := setAt pa.frames i fun kf => { kf with target := v } }

/-- setFrameUp(i, v). -/
def setFrameUp (pa : Path) (i : ℕ) (v : Vec3) : Path :=
  { pa with frames := setAt pa.frames i fun kf => { kf with up := v } }

/-- removeKeyFrame(i). -/
def removeKeyFrame (pa : Path) (i : ℕ) : Path :=
  { pa with frames := pa.frames.eraseIdx i }

/-- Modelled from the spec: the Path keeps keyframes ordered by time, so a new
keyframe is inserted after every keyframe of smaller or equal time; the second
component is the index at which it lands. -/
def insertSorted (kf : Keyframe) : List Keyframe → List Keyframe × ℕ
  | [] => ([kf], 0)
  | k :: ks =>
    if k.time ≤ kf.time then
      let r := insertSorted kf ks
      (k :: r.1, r.2 + 1)
    else
      (kf :: k :: ks, 0)

/-- Modelled from the spec: addKeyFrame inserts ordered by time and returns the
index of the new keyframe. -/
def addKeyFrame (pa : Path) (t : ℚ) (pos tgt upv : Vec3) : Path × ℕ :=
  let r := insertSorted ⟨t, pos, tgt, upv⟩ pa.frames
  ({ pa with frames := r.1 }, r.2)

/-- Modelled from the spec: setFrameTime re-sorts the keyframe by its new time and
returns the resulting index. -/
def setFrameTime (pa : Path) (i : ℕ) (t : ℚ) : Path × ℕ :=
  match pa.frames.get? i with
  | some kf =>
    let r := insertSorted { kf with time := t } (pa.frames.eraseIdx i)
    ({ pa with frames := r.1 }, r.2)
  | none => (pa, i)

/-- setName (the C++ bounded text buffer is a GUI detail; the committed string is
the buffer's content). -/
def setName (pa : Path) (n : String) : Path :=
  { pa with name := n }

/-- setAnimationRepeat. -/
def setAnimationRepeat (pa : Path) (b : Bool) : Path :=
  { pa with loop := b }

end Path

/-- Camera pose read by moveToCamera. -/
structure Camera where
  position : Vec3
  target : Vec3
  upVector : Vec3
  deriving DecidableEq, Repr

/-- The PathEditor member state. -/
structure EState where
  mActiveFrame : ℕ
  mFrameTime : ℚ
  mPreserveRotation : Bool
  mActiveFrameRot : Vec3
  deriving DecidableEq, Repr

/-- The three registered callbacks, recorded as events in invocation order. -/
inductive Ev where
  | frameChanged
  | keyframeCountChanged
  | editComplete
  deriving DecidableEq, Repr

/-- The widgets a render pass draws, in drawing order. -/
inductive Widget where
  | pushWindow
  | closeButton
  | separatorW
  | pathNameBox
  | loopBox
  | frameSelector
  | addFrameButton
  | removeFrameButton
  | frameTimeVar
  | updateTimeButton
  | preserveBox
  | tooltipW
  | positionVar
  | targetVar
  | upVar
  | rotationVar
  | moveToCameraButton
  | popWindow
  deriving DecidableEq, Repr

/-- The per-frame GUI input: which buttons were activated and which bound values
were edited this frame (`some v` = edited, with `v` the value the widget wrote
back through its reference). -/
structure Inputs where
  closeClicked : Bool
  nameEdit : Option String
  loopEdit : Option Bool
  frameSel : Option ℕ
  addClicked : Bool
  removeClicked : Bool
  timeEdit : Option ℚ
  updateTimeClicked : Bool
  preserveToggle : Option Bool
  posEdit : Option Vec3
  targetEdit : Option Vec3
  upEdit : Option Vec3
  rotEdit : Option Vec3
  moveToCamClicked : Bool
  deriving Repr

/-- Unsigned 32-bit decrement: models `getKeyFrameCount() - 1` where the count is
a `uint32_t`, so decrementing a zero count wraps to `2^32 - 1`. -/
def u32pred (n : ℕ) : ℕ :=
  (n + (2 ^ 32 - 1)) % 2 ^ 32

/-- updateActiveFrameRotationAngles: recompute the Euler-angle cache from the
active keyframe's pose.  `euler` abstracts
`degrees ∘ extractEulerAngleXYZ ∘ createMatrixFromLookAt`, external math code. -/
def updateActiveFrameRotationAngles (euler : Vec3 → Vec3 → Vec3 → Vec3)
    (pa : Path) (s : EState) : Option EState :=
  match pa.getKeyFrame? s.mActiveFrame with
  | some kf => some { s with mActiveFrameRot := euler kf.position kf.target kf.up }
  | none => none

/-- setActiveFrame(id): store the index, stage that keyframe's time, recompute the
Euler cache, fire onFrameChanged. -/
def setActiveFrame (euler : Vec3 → Vec3 → Vec3 → Vec3)
    (pa : Path) (s : EState) (id : ℕ) : Option (EState × List Ev) := do
  let kf ← pa.getKeyFrame? id
  let s1 := { s with mActiveFrame := id, mFrameTime := kf.time }
  let s2 ← updateActiveFrameRotationAngles euler pa s1
  pure (s2, [Ev.frameChanged])

/-- editActiveFrameID: when keyframes exist, draw the frame selector; an edited
selector value is written into mActiveFrame and setActiveFrame is called on it. -/
def editActiveFrameID (euler : Vec3 → Vec3 → Vec3 → Vec3)
    (frameSel : Option ℕ) (pa : Path) (s : EState) :
    Option (EState × List Ev × List Widget) :=
  if 0 < pa.frames.length then
    match frameSel with
    | some i => do
      let (s2, evs) ← setActiveFrame euler pa { s with mActiveFrame := i } i
      pure (s2, evs, [Widget.frameSelector])
    | none => some (s, [], [Widget.frameSelector])
  else
    some (s, [], [])

/-- addFrame: on click, insert a new keyframe at mFrameTime — a copy of the active
keyframe's pose when one exists, the default pose otherwise — then fire
onKeyframeCountChanged and setActiveFrame on the returned index. -/
def addFrame (euler : Vec3 → Vec3 → Vec3 → Vec3)
    (clicked : Bool) (pa : Path) (s : EState) :
    Option (Path × EState × List Ev × List Widget) :=
  if clicked then
    if 0 < pa.frames.length then do
      let currFrame ← pa.getKeyFrame? s.mActiveFrame
      let r := Path.addKeyFrame pa s.mFrameTime currFrame.position currFrame.target currFrame.up
      let s1 := { s with mActiveFrame := r.2 }
      let (s2, evs) ← setActiveFrame euler r.1 s1 r.2
      pure (r.1, s2, Ev.keyframeCountChanged :: evs, [Widget.addFrameButton])
    else do
      let r := Path.addKeyFrame pa s.mFrameTime ⟨0, 0, 0⟩ ⟨0, 0, 1⟩ ⟨0, 1, 0⟩
      let s1 := { s with mActiveFrame := r.2 }
      let (s2, evs) ← setActiveFrame euler r.1 s1 r.2
      pure (r.1, s2, Ev.keyframeCountChanged :: evs, [Widget.addFrameButton])
  else
    some (pa, s, [], [Widget.addFrameButton])

/-- deleteFrame: when keyframes exist, draw Remove Frame; on click remove the
active keyframe, fire onKeyframeCountChanged, clamp the active index with the
unsigned `count - 1`, and when keyframes remain call setActiveFrame on it. -/
def deleteFrame (euler : Vec3 → Vec3 → Vec3 → Vec3)
    (clicked : Bool) (pa : Path) (s : EState) :
    Option (Path × EState × List Ev × List Widget) :=
  if 0 < pa.frames.length then
    if clicked then
      let pa1 := Path.removeKeyFrame pa s.mActiveFrame
      let a := min (u32pred pa1.frames.length) s.mActiveFrame
      let s1 := { s with mActiveFrame := a }
      if 0 < pa1.frames.length then do
        let (s2, evs) ← setActiveFrame euler pa1 s1 a
        pure (pa1, s2, Ev.keyframeCountChanged :: evs, [Widget.removeFrameButton])
      else
        some (pa1, s1, [Ev.keyframeCountChanged], [Widget.removeFrameButton])
    else
      some (pa, s, [], [Widget.removeFrameButton])
  else
    some (pa, s, [], [])

/-- updateFrameTime: the button is drawn (and can act) only when the count is
non-zero; on click commit mFrameTime through setFrameTime, fire
onKeyframeCountChanged, and setActiveFrame on the returned index. -/
def updateFrameTime (euler : Vec3 → Vec3 → Vec3 → Vec3)
    (clicked : Bool) (pa : Path) (s : EState) :
    Option (Path × EState × List Ev × List Widget) :=
  if 0 < pa.frames.length then
    if clicked then do
      let r := Path.setFrameTime pa s.mActiveFrame s.mFrameTime
      let s1 := { s with mActiveFrame := r.2 }
      let (s2, evs) ← setActiveFrame euler r.1 s1 r.2
      pure (r.1, s2, Ev.keyframeCountChanged :: evs, [Widget.updateTimeButton])
    else
      some (pa, s, [], [Widget.updateTimeButton])
  else
    some (pa, s, [], [])

/-- Position-field commit of editKeyframeProperties: with Preserve Rotation set,
the target is shifted by the same delta (computed from the pre-edit keyframe)
before the position is committed; otherwise only the position is committed. -/
def posStep (i : ℕ) (preserve : Bool) (keyframe : Keyframe) (posEdit : Option Vec3)
    (pa : Path) : Path :=
  match posEdit with
  | some p1 =>
    if preserve then
      Path.setFramePosition
        (Path.setFrameTarget pa i (p1 + (keyframe.target - keyframe.position))) i p1
    else
      Path.setFramePosition pa i p1
  | none => pa

/-- Target-field commit of editKeyframeProperties. -/
def tgtStep (i : ℕ) (targetEdit : Option Vec3) (pa : Path) : Path :=
  match targetEdit with
  | some t1 => Path.setFrameTarget pa i t1
  | none => pa

/-- Up-field commit of editKeyframeProperties. -/
def upStep (i : ℕ) (upEdit : Option Vec3) (pa : Path) : Path :=
  match upEdit with
  | some u1 => Path.setFrameUp pa i u1
  | none => pa

/-- Rotation-field commit of editKeyframeProperties: the edited angles become the
new Euler cache, the up vector becomes the yaw-pitch-roll matrix's second column
and the target becomes the position value read this frame plus its third column
(`rotCols` abstracts `radians` + `glm::yawPitchRoll`, external math code). -/
def rotStep (rotCols : Vec3 → Vec3 × Vec3) (i : ℕ) (pv : Vec3) (rotEdit : Option Vec3)
    (pa : Path) (s1 : EState) : Path × EState :=
  match rotEdit with
  | some r1 =>
    let cols := rotCols r1
    (Path.setFrameTarget (Path.setFrameUp pa i cols.1) i (pv + cols.2),
     { s1 with mActiveFrameRot := r1 })
  | none => (pa, s1)

/-- editKeyframeProperties: when keyframes exist, draw the Preserve Rotation box,
the Position/Target/Up fields (committing edits to the Path), recompute the Euler
cache when the orientation changed (a position edit counts only when Preserve
Rotation is off; a Rotation-field edit never does), draw the Rotation field, and
fire onFrameChanged exactly once when any field changed. -/
def editKeyframeProperties (euler : Vec3 → Vec3 → Vec3 → Vec3)
    (rotCols : Vec3 → Vec3 × Vec3)
    (preserveToggle : Option Bool) (posEdit targetEdit upEdit rotEdit : Option Vec3)
    (pa : Path) (s : EState) :
    Option (Path × EState × List Ev × List Widget) :=
  if 0 < pa.frames.length then do
    let keyframe ← pa.getKeyFrame? s.mActiveFrame
    let s0 := { s with mPreserveRotation := preserveToggle.getD s.mPreserveRotation }
    let pv := posEdit.getD keyframe.position
    let pa1 := posStep s.mActiveFrame s0.mPreserveRotation keyframe posEdit pa
    let pa2 := tgtStep s.mActiveFrame targetEdit pa1
    let pa3 := upStep s.mActiveFrame upEdit pa2
    let rotCh := (posEdit.isSome && !s0.mPreserveRotation) || targetEdit.isSome
      || upEdit.isSome
    let s1 ← if rotCh then updateActiveFrameRotationAngles euler pa3 s0 else pure s0
    let r := rotStep rotCols s.mActiveFrame pv rotEdit pa3 s1
    let dirty := posEdit.isSome || targetEdit.isSome || upEdit.isSome || rotEdit.isSome
    pure (r.1, r.2, if dirty then [Ev.frameChanged] else [],
      [Widget.preserveBox, Widget.tooltipW, Widget.positionVar, Widget.targetVar,
       Widget.upVar, Widget.rotationVar])
  else
    some (pa, s, [], [])

/-- moveToCamera: when keyframes exist, draw the button; on click copy the
camera's pose into the active keyframe and fire onFrameChanged. -/
def moveToCamera (cam : Camera) (clicked : Bool) (pa : Path) (s : EState) :
    Option (Path × EState × List Ev × List Widget) :=
  if 0 < pa.frames.length then
    if clicked then
      let pa1 := Path.setFramePosition pa s.mActiveFrame cam.position
      let pa2 := Path.setFrameTarget pa1 s.mActiveFrame cam.target
      let pa3 := Path.setFrameUp pa2 s.mActiveFrame cam.upVector
      some (pa3, s, [Ev.frameChanged], [Widget.moveToCameraButton])
    else
      some (pa, s, [], [Widget.moveToCameraButton])
  else
    some (pa, s, [], [])

/-- Tail of the render pass (after Add Frame): Remove Frame, the Frame Time
field (a pure staging edit of mFrameTime), Update Current Frame Time, the
keyframe-property editor and Move Frame to Camera, followed by the window pop. -/
def renderTail (euler : Vec3 → Vec3 → Vec3 → Vec3) (rotCols : Vec3 → Vec3 × Vec3)
    (cam : Camera) (inp : Inputs) (pa : Path) (s : EState) :
    Option (Path × EState × List Ev × List Widget) := do
  let (pa4, s3, e3, w3) ← deleteFrame euler inp.removeClicked pa s
  let s4 := { s3 with mFrameTime := inp.timeEdit.getD s3.mFrameTime }
  let (pa5, s5, e4, w4) ← updateFrameTime euler inp.updateTimeClicked pa4 s4
  let (pa6, s6, e5, w5) ← editKeyframeProperties euler rotCols inp.preserveToggle
    inp.posEdit inp.targetEdit inp.upEdit inp.rotEdit pa5 s5
  let (pa7, s7, e6, w6) ← moveToCamera cam inp.moveToCamClicked pa6 s6
  pure (pa7, s7, e3 ++ e4 ++ e5 ++ e6,
    w3 ++ [Widget.separatorW, Widget.frameTimeVar] ++ w4 ++ [Widget.separatorW]
      ++ w5 ++ w6 ++ [Widget.popWindow])

/-- render: one UI frame of the panel.  The Close control early-exits; otherwise
the widgets run in source order, threading the path, the editor state, the event
trace and the widget trace. -/
def render (euler : Vec3 → Vec3 → Vec3 → Vec3) (rotCols : Vec3 → Vec3 × Vec3)
    (cam : Camera) (inp : Inputs) (pa : Path) (s : EState) :
    Option (Path × EState × List Ev × List Widget) :=
  if inp.closeClicked then
    some (pa, s, [Ev.editComplete], [Widget.pushWindow, Widget.closeButton, Widget.popWindow])
  else do
    let pa1 := { pa with name := inp.nameEdit.getD pa.name }
    let pa2 := { pa1 with loop := inp.loopEdit.getD pa1.loop }
    let (s1, e1, w1) ← editActiveFrameID euler inp.frameSel pa2 s
    let (pa3, s2, e2, w2) ← addFrame euler inp.addClicked pa2 s1
    let (pa7, s7, etail, wtail) ← renderTail euler rotCols cam inp pa3 s2
    pure (pa7, s7, e1 ++ e2 ++ etail,
      [Widget.pushWindow, Widget.closeButton, Widget.separatorW, Widget.pathNameBox,
       Widget.loopBox] ++ w1 ++ w2 ++ wtail)

/-- Sample euler parameter for concrete evaluations. -/
def eul0 : Vec3 → Vec3 → Vec3 → Vec3 := fun _ _ _ => ⟨0, 0, 0⟩

/-- Sample yaw-pitch-roll column parameter for concrete evaluations. -/
def rc0 : Vec3 → Vec3 × Vec3 := fun _ => (⟨0, 1, 0⟩, ⟨0, 0, 1⟩)

/-- Sample camera. -/
def cam0 : Camera := ⟨⟨1, 2, 3⟩, ⟨4, 5, 6⟩, ⟨0, 1, 0⟩⟩

/-- Sample keyframe. -/
def kfA : Keyframe := ⟨1, ⟨1, 1, 1⟩, ⟨2, 3, 4⟩, ⟨0, 1, 0⟩⟩

/-- Second sample keyframe. -/
def kfB : Keyframe := ⟨2, ⟨5, 0, 0⟩, ⟨5, 0, 1⟩, ⟨0, 1, 0⟩⟩

/-- Sample two-keyframe path. -/
def paW2 : Path := ⟨"path", false, [kfA, kfB]⟩

/-- Sample one-keyframe path. -/
def paW1 : Path := ⟨"path", false, [kfA]⟩

/-- Sample empty path. -/
def paW0 : Path := ⟨"path", false, []⟩

/-- Sample editor state. -/
def st0 : EState := ⟨0, 0, false, ⟨0, 0, 0⟩⟩

/-- Sample editor state with Preserve Rotation on. -/
def stP : EState := ⟨0, 0, true, ⟨0, 0, 0⟩⟩

/-- Input frame with no activity. -/
def inpNone : Inputs :=
  ⟨false, none, none, none, false, false, none, false, none, none, none, none, none, false⟩

/-- Input frame where only Close was clicked. -/
def inpClose : Inputs :=
  ⟨true, none, none, none, false, false, none, false, none, none, none, none, none, false⟩

theorem get?_some_lt {α : Type} {l : List α} {i : ℕ} {x : α}
    (h : l.get? i = some x) : i < l.length := by
  by_contra hc
  push_neg at hc
  rw [List.get?_eq_none.mpr hc] at h
  exact Option.noConfusion h

theorem exists_get?_of_lt {α : Type} (l : List α) {i : ℕ} (h : i < l.length) :
    ∃ x, l.get? i = some x :=
  ⟨l.get ⟨i, h⟩, List.get?_eq_get h⟩

theorem setAt_length : ∀ (l : List Keyframe) (i : ℕ) (f : Keyframe → Keyframe),
    (Path.setAt l i f).length = l.length
  | [], _, _ => rfl
  | _ :: _, 0, _ => rfl
  | _ :: ks, i + 1, f => by
    simp [Path.setAt, setAt_length ks i f]

theorem setAt_get_self : ∀ (l : List Keyframe) (i : ℕ) (f : Keyframe → Keyframe)
    (kf : Keyframe), l.get? i = some kf → (Path.setAt l i f).get? i = some (f kf)
  | [], i, _, _, h => by simp [List.get?] at h
  | k :: ks, 0, f, kf, h => by
    simp [List.get?] at h
    subst h
    rfl
  | k :: ks, i + 1, f, kf, h => by
    simpa [Path.setAt, List.get?] using setAt_get_self ks i f kf h

theorem insertSorted_get : ∀ (kf : Keyframe) (l : List Keyframe),
    ((Path.insertSorted kf l).1).get? (Path.insertSorted kf l).2 = some kf
  | kf, [] => rfl
  | kf, k :: ks => by
    rw [Path.insertSorted]
    by_cases h : k.time ≤ kf.time
    · simpa [h, List.get?] using insertSorted_get kf ks
    · simp [h, List.get?]

theorem Vec3.add_def (a b : Vec3) : a + b = ⟨a.x + b.x, a.y + b.y, a.z + b.z⟩ := rfl

theorem Vec3.sub_def (a b : Vec3) : a - b = ⟨a.x - b.x, a.y - b.y, a.z - b.z⟩ := rfl

theorem Vec3.add_sub_cancel_left_vec (a b : Vec3) : a + b - a = b := by
  cases a
  cases b
  simp [Vec3.add_def, Vec3.sub_def]

theorem setActiveFrame_eq (euler : Vec3 → Vec3 → Vec3 → Vec3) (pa : Path) (s : EState)
    (i : ℕ) (kf : Keyframe) (h : pa.getKeyFrame? i = some kf) :
    setActiveFrame euler pa s i =
      some ({ s with
              mActiveFrame := i
              mFrameTime := kf.time
              mActiveFrameRot := euler kf.position kf.target kf.up }, [Ev.frameChanged]) := by
  simp [setActiveFrame, updateActiveFrameRotationAngles, h]

theorem posStep_length (i : ℕ) (pres : Bool) (kf : Keyframe) (pe : Option Vec3) (pa : Path) :
    (posStep i pres kf pe pa).frames.length = pa.frames.length := by
  cases pe with
  | none => rfl
  | some p1 =>
    cases pres <;>
      simp [posStep, Path.setFramePosition, Path.setFrameTarget, setAt_length]

theorem tgtStep_length (i : ℕ) (te : Option Vec3) (pa : Path) :
    (tgtStep i te pa).frames.length = pa.frames.length := by
  cases te <;> simp [tgtStep, Path.setFrameTarget, setAt_length]

theorem upStep_length (i : ℕ) (ue : Option Vec3) (pa : Path) :
    (upStep i ue pa).frames.length = pa.frames.length := by
  cases ue <;> simp [upStep, Path.setFrameUp, setAt_length]

theorem steps_length (i : ℕ) (pres : Bool) (kf : Keyframe) (pe te ue : Option Vec3)
    (pa : Path) :
    (upStep i ue (tgtStep i te (posStep i pres kf pe pa))).frames.length =
      pa.frames.length := by
  rw [upStep_length, tgtStep_length, posStep_length]

theorem editKfp_eq (euler : Vec3 → Vec3 → Vec3 → Vec3) (rotCols : Vec3 → Vec3 × Vec3)
    (pt : Option Bool) (pe te ue re : Option Vec3) (pa : Path) (s : EState)
    (kf kf3 : Keyframe)
    (h : pa.getKeyFrame? s.mActiveFrame = some kf)
    (h3 : (upStep s.mActiveFrame ue (tgtStep s.mActiveFrame te
        (posStep s.mActiveFrame (pt.getD s.mPreserveRotation) kf pe pa))).getKeyFrame?
        s.mActiveFrame = some kf3) :
    editKeyframeProperties euler rotCols pt pe te ue re pa s =
      some ((rotStep rotCols s.mActiveFrame (pe.getD kf.position) re
              (upStep s.mActiveFrame ue (tgtStep s.mActiveFrame te
                (posStep s.mActiveFrame (pt.getD s.mPreserveRotation) kf pe pa)))
              (if (pe.isSome && !(pt.getD s.mPreserveRotation)) || te.isSome || ue.isSome
               then { s with
                      mPreserveRotation := pt.getD s.mPreserveRotation
                      mActiveFrameRot := euler kf3.position kf3.target kf3.up }
               else { s with mPreserveRotation := pt.getD s.mPreserveRotation })).1,
            (rotStep rotCols s.mActiveFrame (pe.getD kf.position) re
              (upStep s.mActiveFrame ue (tgtStep s.mActiveFrame te
                (posStep s.mActiveFrame (pt.getD s.mPreserveRotation) kf pe pa)))
              (if (pe.isSome && !(pt.getD s.mPreserveRotation)) || te.isSome || ue.isSome
               then { s with
                      mPreserveRotation := pt.getD s.mPreserveRotation
                      mActiveFrameRot := euler kf3.position kf3.target kf3.up }
               else { s with mPreserveRotation := pt.getD s.mPreserveRotation })).2,
            (if pe.isSome || te.isSome || ue.isSome || re.isSome
             then [Ev.frameChanged] else []),
            [Widget.preserveBox, Widget.tooltipW, Widget.positionVar, Widget.targetVar,
             Widget.upVar, Widget.rotationVar]) := by
  have hpos : 0 < pa.frames.length :=
    Nat.lt_of_le_of_lt (Nat.zero_le _) (get?_some_lt h)
  cases hb : (pe.isSome && !(pt.getD s.mPreserveRotation)) || te.isSome || ue.isSome <;>
    simp [editKeyframeProperties, hpos, h, hb, updateActiveFrameRotationAngles, h3]

theorem updateRot_exists (euler : Vec3 → Vec3 → Vec3 → Vec3) (pa : Path) (s : EState)
    (h : s.mActiveFrame < pa.frames.length) :
    ∃ s2, updateActiveFrameRotationAngles euler pa s = some s2 := by
  obtain ⟨kf, hkf⟩ := exists_get?_of_lt pa.frames h
  refine ⟨{ s with mActiveFrameRot := euler kf.position kf.target kf.up }, ?_⟩
  unfold updateActiveFrameRotationAngles Path.getKeyFrame?
  rw [hkf]

theorem addFrame_nil (euler : Vec3 → Vec3 → Vec3 → Vec3) (pa : Path) (s : EState)
    (h : pa.frames = []) :
    addFrame euler true pa s =
      some ({ pa with frames := [⟨s.mFrameTime, ⟨0, 0, 0⟩, ⟨0, 0, 1⟩, ⟨0, 1, 0⟩⟩] },
            { s with
              mActiveFrame := 0
              mActiveFrameRot := euler ⟨0, 0, 0⟩ ⟨0, 0, 1⟩ ⟨0, 1, 0⟩ },
            [Ev.keyframeCountChanged, Ev.frameChanged], [Widget.addFrameButton]) := by
  obtain ⟨nm, lp, fr⟩ := pa
  simp only [Path.frames] at h
  subst h
  simp [addFrame, Path.addKeyFrame, Path.insertSorted, setActiveFrame,
    updateActiveFrameRotationAngles, Path.getKeyFrame?]

theorem addFrame_notClicked (euler : Vec3 → Vec3 → Vec3 → Vec3) (pa : Path) (s : EState) :
    addFrame euler false pa s = some (pa, s, [], [Widget.addFrameButton]) := by
  simp [addFrame]

/-- C1: for a valid index `i`, setActiveFrame(i) sets mActiveFrame to `i`, stages
keyframe `i`'s time in mFrameTime, recomputes the Euler cache from keyframe `i`'s
pose, leaves everything else unchanged, and fires exactly one onFrameChanged. -/
theorem setActiveFrame_spec (euler : Vec3 → Vec3 → Vec3 → Vec3) (pa : Path) (s : EState)
    (i : ℕ) (kf : Keyframe) (h : pa.getKeyFrame? i = some kf) :
    setActiveFrame euler pa s i =
      some ({ s with
              mActiveFrame := i
              mFrameTime := kf.time
              mActiveFrameRot := euler kf.position kf.target kf.up }, [Ev.frameChanged]) :=
  setActiveFrame_eq euler pa s i kf h

/-- Witness for C1 at a concrete one-keyframe path. -/
theorem setActiveFrame_spec_witness :
    paW1.getKeyFrame? 0 = some kfA ∧
    setActiveFrame eul0 paW1 st0 0 =
      some ({ st0 with
              mActiveFrame := 0
              mFrameTime := kfA.time
              mActiveFrameRot := eul0 kfA.position kfA.target kfA.up }, [Ev.frameChanged]) :=
  ⟨rfl, setActiveFrame_spec eul0 paW1 st0 0 kfA rfl⟩

/-- C2: Add Frame inserts — at time mFrameTime — the default pose
(0,0,0)/(0,0,1)/(0,1,0) when the path is empty, and a copy of the active
keyframe's pose otherwise; it fires onKeyframeCountChanged and then
setActiveFrame on the index returned by addKeyFrame, at which the new keyframe
sits, so the new frame becomes active. -/
theorem addFrame_spec (euler : Vec3 → Vec3 → Vec3 → Vec3) (pa : Path) (s : EState) :
    (pa.frames = [] →
      addFrame euler true pa s =
        some ({ pa with frames := [⟨s.mFrameTime, ⟨0, 0, 0⟩, ⟨0, 0, 1⟩, ⟨0, 1, 0⟩⟩] },
              { s with
                mActiveFrame := 0
                mActiveFrameRot := euler ⟨0, 0, 0⟩ ⟨0, 0, 1⟩ ⟨0, 1, 0⟩ },
              [Ev.keyframeCountChanged, Ev.frameChanged], [Widget.addFrameButton])) ∧
    (∀ kf, pa.getKeyFrame? s.mActiveFrame = some kf →
      addFrame euler true pa s =
        some ((Path.addKeyFrame pa s.mFrameTime kf.position kf.target kf.up).1,
              { s with
                mActiveFrame := (Path.addKeyFrame pa s.mFrameTime kf.position kf.target kf.up).2
                mActiveFrameRot := euler kf.position kf.target kf.up },
              [Ev.keyframeCountChanged, Ev.frameChanged], [Widget.addFrameButton]) ∧
      (Path.addKeyFrame pa s.mFrameTime kf.position kf.target kf.up).1.getKeyFrame?
          (Path.addKeyFrame pa s.mFrameTime kf.position kf.target kf.up).2 =
        some ⟨s.mFrameTime, kf.position, kf.target, kf.up⟩) := by
  refine ⟨addFrame_nil euler pa s, ?_⟩
  intro kf h
  have hpos : 0 < pa.frames.length :=
    Nat.lt_of_le_of_lt (Nat.zero_le _) (get?_some_lt h)
  have hnew : (Path.addKeyFrame pa s.mFrameTime kf.position kf.target kf.up).1.getKeyFrame?
      (Path.addKeyFrame pa s.mFrameTime kf.position kf.target kf.up).2 =
      some ⟨s.mFrameTime, kf.position, kf.target, kf.up⟩ :=
    insertSorted_get ⟨s.mFrameTime, kf.position, kf.target, kf.up⟩ pa.frames
  refine ⟨?_, hnew⟩
  have hsa := setActiveFrame_eq euler
    (Path.addKeyFrame pa s.mFrameTime kf.position kf.target kf.up).1
    { s with
      mActiveFrame := (Path.addKeyFrame pa s.mFrameTime kf.position kf.target kf.up).2 }
    (Path.addKeyFrame pa s.mFrameTime kf.position kf.target kf.up).2
    ⟨s.mFrameTime, kf.position, kf.target, kf.up⟩ hnew
  simp [addFrame, hpos, h, hsa]

/-- Witness for C2: both the empty-path case and the copy case at concrete paths. -/
theorem addFrame_spec_witness :
    (paW0.frames = [] ∧
     addFrame eul0 true paW0 st0 =
       some ({ paW0 with frames := [⟨st0.mFrameTime, ⟨0, 0, 0⟩, ⟨0, 0, 1⟩, ⟨0, 1, 0⟩⟩] },
             { st0 with
               mActiveFrame := 0
               mActiveFrameRot := eul0 ⟨0, 0, 0⟩ ⟨0, 0, 1⟩ ⟨0, 1, 0⟩ },
             [Ev.keyframeCountChanged, Ev.frameChanged], [Widget.addFrameButton])) ∧
    (paW1.getKeyFrame? st0.mActiveFrame = some kfA ∧
     addFrame eul0 true paW1 st0 =
       some ((Path.addKeyFrame paW1 st0.mFrameTime kfA.position kfA.target kfA.up).1,
             { st0 with
               mActiveFrame :=
                 (Path.addKeyFrame paW1 st0.mFrameTime kfA.position kfA.target kfA.up).2
               mActiveFrameRot := eul0 kfA.position kfA.target kfA.up },
             [Ev.keyframeCountChanged, Ev.frameChanged], [Widget.addFrameButton]) ∧
     (Path.addKeyFrame paW1 st0.mFrameTime kfA.position kfA.target kfA.up).1.getKeyFrame?
         (Path.addKeyFrame paW1 st0.mFrameTime kfA.position kfA.target kfA.up).2 =
       some ⟨st0.mFrameTime, kfA.position, kfA.target, kfA.up⟩) :=
  ⟨⟨rfl, (addFrame_spec eul0 paW0 st0).1 rfl⟩,
   rfl, (addFrame_spec eul0 paW1 st0).2 kfA rfl⟩

/-- C3: with Preserve Rotation on, editing the position to `p1` commits position
`p1` and target `p1 + (old target − old position)`, so the committed keyframe's
look direction `target − position` is unchanged (time and up also unchanged),
and onFrameChanged fires. -/
theorem preserveRotation_spec (euler : Vec3 → Vec3 → Vec3 → Vec3)
    (rotCols : Vec3 → Vec3 × Vec3) (pa : Path) (s : EState) (p1 : Vec3) (kf : Keyframe)
    (hpres : s.mPreserveRotation = true)
    (h : pa.getKeyFrame? s.mActiveFrame = some kf) :
    ∃ s4 ws,
      editKeyframeProperties euler rotCols none (some p1) none none none pa s =
        some (posStep s.mActiveFrame true kf (some p1) pa, s4, [Ev.frameChanged], ws) ∧
      (posStep s.mActiveFrame true kf (some p1) pa).getKeyFrame? s.mActiveFrame =
        some ⟨kf.time, p1, p1 + (kf.target - kf.position), kf.up⟩ ∧
      (⟨kf.time, p1, p1 + (kf.target - kf.position), kf.up⟩ : Keyframe).target -
          (⟨kf.time, p1, p1 + (kf.target - kf.position), kf.up⟩ : Keyframe).position =
        kf.target - kf.position := by
  have h1 := setAt_get_self pa.frames s.mActiveFrame
    (fun k => { k with target := p1 + (kf.target - kf.position) }) kf h
  have h2 := setAt_get_self _ s.mActiveFrame
    (fun k => { k with position := p1 }) _ h1
  have h4 : (posStep s.mActiveFrame true kf (some p1) pa).getKeyFrame? s.mActiveFrame =
      some ⟨kf.time, p1, p1 + (kf.target - kf.position), kf.up⟩ := h2
  have h3 : (upStep s.mActiveFrame none (tgtStep s.mActiveFrame none
      (posStep s.mActiveFrame ((none : Option Bool).getD s.mPreserveRotation) kf
        (some p1) pa))).getKeyFrame? s.mActiveFrame =
      some ⟨kf.time, p1, p1 + (kf.target - kf.position), kf.up⟩ := by
    simp only [upStep, tgtStep, Option.getD_none, hpres]
    exact h4
  have heq := editKfp_eq euler rotCols none (some p1) none none none pa s kf
    ⟨kf.time, p1, p1 + (kf.target - kf.position), kf.up⟩ h h3
  refine ⟨{ s with mPreserveRotation := s.mPreserveRotation },
    [Widget.preserveBox, Widget.tooltipW, Widget.positionVar, Widget.targetVar,
     Widget.upVar, Widget.rotationVar],
    ?_, h4, Vec3.add_sub_cancel_left_vec p1 (kf.target - kf.position)⟩
  simpa [rotStep, upStep, tgtStep, hpres] using heq

/-- Witness for C3 at a concrete path with Preserve Rotation set. -/
theorem preserveRotation_spec_witness :
    stP.mPreserveRotation = true ∧
    paW1.getKeyFrame? stP.mActiveFrame = some kfA ∧
    (∃ s4 ws,
      editKeyframeProperties eul0 rc0 none (some ⟨7, 8, 9⟩) none none none paW1 stP =
        some (posStep stP.mActiveFrame true kfA (some ⟨7, 8, 9⟩) paW1, s4,
              [Ev.frameChanged], ws) ∧
      (posStep stP.mActiveFrame true kfA (some ⟨7, 8, 9⟩) paW1).getKeyFrame?
          stP.mActiveFrame =
        some ⟨kfA.time, ⟨7, 8, 9⟩, ⟨7, 8, 9⟩ + (kfA.target - kfA.position), kfA.up⟩ ∧
      (⟨kfA.time, ⟨7, 8, 9⟩, ⟨7, 8, 9⟩ + (kfA.target - kfA.position), kfA.up⟩ :
          Keyframe).target -
          (⟨kfA.time, ⟨7, 8, 9⟩, ⟨7, 8, 9⟩ + (kfA.target - kfA.position), kfA.up⟩ :
          Keyframe).position =
        kfA.target - kfA.position) :=
  ⟨rfl, rfl, preserveRotation_spec eul0 rc0 paW1 stP ⟨7, 8, 9⟩ kfA rfl rfl⟩

/-- C4: Remove Frame with at least two keyframes removes the active keyframe,
fires onKeyframeCountChanged, clamps the active index to
`min(newCount - 1, activeFrameIndex)` and calls setActiveFrame on it (which
fires onFrameChanged); removing the last keyframe (index N−1) leaves the new
active index N−2. -/
theorem deleteFrame_spec (euler : Vec3 → Vec3 → Vec3 → Vec3) (pa : Path) (s : EState)
    (h2 : 2 ≤ pa.frames.length) (ha : s.mActiveFrame < pa.frames.length)
    (hb : pa.frames.length ≤ 2 ^ 32) :
    ∃ kf2,
      (Path.removeKeyFrame pa s.mActiveFrame).getKeyFrame?
          (min (pa.frames.length - 2) s.mActiveFrame) = some kf2 ∧
      deleteFrame euler true pa s =
        some (Path.removeKeyFrame pa s.mActiveFrame,
              { s with
                mActiveFrame := min (pa.frames.length - 2) s.mActiveFrame
                mFrameTime := kf2.time
                mActiveFrameRot := euler kf2.position kf2.target kf2.up },
              [Ev.keyframeCountChanged, Ev.frameChanged], [Widget.removeFrameButton]) ∧
      (Path.removeKeyFrame pa s.mActiveFrame).frames.length - 1 =
        pa.frames.length - 2 ∧
      (s.mActiveFrame = pa.frames.length - 1 →
        min (pa.frames.length - 2) s.mActiveFrame = pa.frames.length - 2) := by
  have hpos : 0 < pa.frames.length := by omega
  have hlen : (pa.frames.eraseIdx s.mActiveFrame).length = pa.frames.length - 1 := by
    have h := List.length_eraseIdx_add_one ha
    omega
  have hwrap : u32pred (pa.frames.length - 1) = pa.frames.length - 2 := by
    unfold u32pred
    have e : pa.frames.length - 1 + (2 ^ 32 - 1) = pa.frames.length - 2 + 2 ^ 32 := by
      omega
    rw [e, Nat.add_mod_right]
    exact Nat.mod_eq_of_lt (by omega)
  have e2 : u32pred ((Path.removeKeyFrame pa s.mActiveFrame).frames.length) =
      pa.frames.length - 2 := by
    show u32pred ((pa.frames.eraseIdx s.mActiveFrame).length) = _
    rw [hlen, hwrap]
  have hpos1 : 0 < (Path.removeKeyFrame pa s.mActiveFrame).frames.length := by
    show 0 < (pa.frames.eraseIdx s.mActiveFrame).length
    omega
  have hmin : min (pa.frames.length - 2) s.mActiveFrame <
      (pa.frames.eraseIdx s.mActiveFrame).length := by
    rw [hlen]
    omega
  obtain ⟨kf2, hkf2⟩ := exists_get?_of_lt _ hmin
  have hkf2g : (Path.removeKeyFrame pa s.mActiveFrame).getKeyFrame?
      (min (pa.frames.length - 2) s.mActiveFrame) = some kf2 := hkf2
  refine ⟨kf2, hkf2g, ?_, by rw [show (Path.removeKeyFrame pa s.mActiveFrame).frames =
    pa.frames.eraseIdx s.mActiveFrame from rfl]; omega, fun he => by omega⟩
  have hsa := setActiveFrame_eq euler (Path.removeKeyFrame pa s.mActiveFrame)
    { s with mActiveFrame := min (pa.frames.length - 2) s.mActiveFrame }
    (min (pa.frames.length - 2) s.mActiveFrame) kf2 hkf2g
  simp [deleteFrame, hpos, hpos1, e2, hsa]

/-- Witness for C4 at a concrete two-keyframe path with the last frame active. -/
theorem deleteFrame_spec_witness :
    2 ≤ paW2.frames.length ∧ 1 < paW2.frames.length ∧ paW2.frames.length ≤ 2 ^ 32 ∧
    (∃ kf2,
      (Path.removeKeyFrame paW2 1).getKeyFrame? (min (paW2.frames.length - 2) 1) =
        some kf2 ∧
      deleteFrame eul0 true paW2 ⟨1, 0, false, ⟨0, 0, 0⟩⟩ =
        some (Path.removeKeyFrame paW2 1,
              { (⟨1, 0, false, ⟨0, 0, 0⟩⟩ : EState) with
                mActiveFrame := min (paW2.frames.length - 2) 1
                mFrameTime := kf2.time
                mActiveFrameRot := eul0 kf2.position kf2.target kf2.up },
              [Ev.keyframeCountChanged, Ev.frameChanged], [Widget.removeFrameButton]) ∧
      (Path.removeKeyFrame paW2 1).frames.length - 1 = paW2.frames.length - 2 ∧
      ((1 : ℕ) = paW2.frames.length - 1 →
        min (paW2.frames.length - 2) 1 = paW2.frames.length - 2)) :=
  ⟨by decide, by decide, by norm_num [paW2],
   deleteFrame_spec eul0 paW2 ⟨1, 0, false, ⟨0, 0, 0⟩⟩ (by decide) (by decide)
     (by norm_num [paW2])⟩

/-- C6: within one render of the keyframe-property editor, onFrameChanged fires
exactly once when any of the position, target, up or rotation fields changed,
and not at all otherwise — in particular a Preserve Rotation toggle alone
(`pt` arbitrary, all four edits absent) fires nothing. -/
theorem editKfp_frameChanged (euler : Vec3 → Vec3 → Vec3 → Vec3)
    (rotCols : Vec3 → Vec3 × Vec3) (pt : Option Bool) (pe te ue re : Option Vec3)
    (pa : Path) (s : EState) (kf : Keyframe)
    (h : pa.getKeyFrame? s.mActiveFrame = some kf) :
    ∃ pa4 s4 ws,
      editKeyframeProperties euler rotCols pt pe te ue re pa s =
        some (pa4, s4,
          (if pe.isSome || te.isSome || ue.isSome || re.isSome
           then [Ev.frameChanged] else []), ws) := by
  have hlt := get?_some_lt h
  obtain ⟨kf3, hkf3⟩ := exists_get?_of_lt
    (upStep s.mActiveFrame ue (tgtStep s.mActiveFrame te
      (posStep s.mActiveFrame (pt.getD s.mPreserveRotation) kf pe pa))).frames
    (by rw [steps_length]; exact hlt)
  exact ⟨_, _, _, editKfp_eq euler rotCols pt pe te ue re pa s kf kf3 h hkf3⟩

/-- Witness for C6: a frame with only the Preserve Rotation box toggled fires no
onFrameChanged (the event list is empty). -/
theorem editKfp_frameChanged_witness :
    paW1.getKeyFrame? st0.mActiveFrame = some kfA ∧
    (∃ pa4 s4 ws,
      editKeyframeProperties eul0 rc0 (some true) none none none none paW1 st0 =
        some (pa4, s4,
          (if (none : Option Vec3).isSome || (none : Option Vec3).isSome ||
              (none : Option Vec3).isSome || (none : Option Vec3).isSome
           then [Ev.frameChanged] else []), ws)) :=
  ⟨rfl, editKfp_frameChanged eul0 rc0 (some true) none none none none paW1 st0 kfA rfl⟩

/-- C7: when Close is activated, the render pass fires onEditComplete exactly once,
closes the window, leaves the path and the editor state untouched, and draws no
widget other than the window push/pop and the Close button itself. -/
theorem render_close_spec (euler : Vec3 → Vec3 → Vec3 → Vec3) (rotCols : Vec3 → Vec3 × Vec3)
    (cam : Camera) (inp : Inputs) (pa : Path) (s : EState)
    (h : inp.closeClicked = true) :
    render euler rotCols cam inp pa s =
      some (pa, s, [Ev.editComplete],
            [Widget.pushWindow, Widget.closeButton, Widget.popWindow]) := by
  simp [render, h]

/-- Witness for C7 at a concrete input with Close clicked. -/
theorem render_close_spec_witness :
    inpClose.closeClicked = true ∧
    render eul0 rc0 cam0 inpClose paW2 st0 =
      some (paW2, st0, [Ev.editComplete],
            [Widget.pushWindow, Widget.closeButton, Widget.popWindow]) :=
  ⟨rfl, render_close_spec eul0 rc0 cam0 inpClose paW2 st0 rfl⟩

/-- C9: removing the only keyframe wraps the unsigned clamp `count - 1` to
`2^32 - 1`, so the active index keeps its previous value, setActiveFrame is
skipped, only onKeyframeCountChanged fires, and mFrameTime and the Euler cache
keep their stale values (the editor state is returned unchanged). -/
theorem deleteFrame_only_keyframe (euler : Vec3 → Vec3 → Vec3 → Vec3) (pa : Path)
    (s : EState) (kf : Keyframe) (hf : pa.frames = [kf]) (ha : s.mActiveFrame = 0) :
    u32pred 0 = 2 ^ 32 - 1 ∧
    deleteFrame euler true pa s =
      some ({ pa with frames := [] }, s, [Ev.keyframeCountChanged],
            [Widget.removeFrameButton]) := by
  obtain ⟨nm, lp, fr⟩ := pa
  obtain ⟨ai, ft, pr, rt⟩ := s
  simp only [EState.mActiveFrame] at ha
  simp only [Path.frames] at hf
  subst hf
  subst ha
  refine ⟨?_, ?_⟩
  · unfold u32pred
    rw [Nat.zero_add]
    exact Nat.mod_eq_of_lt (by norm_num)
  · simp [deleteFrame, Path.removeKeyFrame]

/-- Witness for C9 at a concrete one-keyframe path. -/
theorem deleteFrame_only_keyframe_witness :
    paW1.frames = [kfA] ∧ st0.mActiveFrame = 0 ∧
    (u32pred 0 = 2 ^ 32 - 1 ∧
     deleteFrame eul0 true paW1 st0 =
       some ({ paW1 with frames := [] }, st0, [Ev.keyframeCountChanged],
             [Widget.removeFrameButton])) :=
  ⟨rfl, rfl, deleteFrame_only_keyframe eul0 paW1 st0 kfA rfl rfl⟩

/-- C10: Move Frame to Camera commits the camera pose to the active keyframe and
fires onFrameChanged once, but returns the editor state unchanged: the Euler
cache and mFrameTime keep their previous (now stale) values. -/
theorem moveToCamera_spec (cam : Camera) (pa : Path) (s : EState) (kf : Keyframe)
    (h : pa.getKeyFrame? s.mActiveFrame = some kf) :
    ∃ pa3, moveToCamera cam true pa s =
        some (pa3, s, [Ev.frameChanged], [Widget.moveToCameraButton]) ∧
      pa3.getKeyFrame? s.mActiveFrame =
        some { kf with
               position := cam.position
               target := cam.target
               up := cam.upVector } ∧
      pa3.frames.length = pa.frames.length := by
  have hlt : s.mActiveFrame < pa.frames.length := get?_some_lt h
  refine ⟨Path.setFrameUp (Path.setFrameTarget
    (Path.setFramePosition pa s.mActiveFrame cam.position) s.mActiveFrame cam.target)
    s.mActiveFrame cam.upVector, ?_, ?_, ?_⟩
  · simp [moveToCamera, Nat.lt_of_le_of_lt (Nat.zero_le _) hlt]
  · have h1 := setAt_get_self pa.frames s.mActiveFrame
      (fun kf => { kf with position := cam.position }) kf h
    have h2 := setAt_get_self _ s.mActiveFrame
      (fun kf => { kf with target := cam.target }) _ h1
    have h3 := setAt_get_self _ s.mActiveFrame
      (fun kf => { kf with up := cam.upVector }) _ h2
    simpa [Path.setFramePosition, Path.setFrameTarget, Path.setFrameUp,
      Path.getKeyFrame?] using h3
  · simp [Path.setFramePosition, Path.setFrameTarget, Path.setFrameUp, setAt_length]

/-- Witness for C10 at a concrete one-keyframe path. -/
theorem moveToCamera_spec_witness :
    paW1.getKeyFrame? st0.mActiveFrame = some kfA ∧
    (∃ pa3, moveToCamera cam0 true paW1 st0 =
        some (pa3, st0, [Ev.frameChanged], [Widget.moveToCameraButton]) ∧
      pa3.getKeyFrame? st0.mActiveFrame =
        some { kfA with
               position := cam0.position
               target := cam0.target
               up := cam0.upVector } ∧
      pa3.frames.length = paW1.frames.length) :=
  ⟨rfl, moveToCamera_spec cam0 paW1 st0 kfA rfl⟩

theorem editActiveFrameID_noFrames (euler : Vec3 → Vec3 → Vec3 → Vec3)
    (fs : Option ℕ) (pa : Path) (s : EState) (h : pa.frames = []) :
    editActiveFrameID euler fs pa s = some (s, [], []) := by
  simp [editActiveFrameID, h]

theorem deleteFrame_noFrames (euler : Vec3 → Vec3 → Vec3 → Vec3) (c : Bool)
    (pa : Path) (s : EState) (h : pa.frames = []) :
    deleteFrame euler c pa s = some (pa, s, [], []) := by
  simp [deleteFrame, h]

theorem updateFrameTime_noFrames (euler : Vec3 → Vec3 → Vec3 → Vec3) (c : Bool)
    (pa : Path) (s : EState) (h : pa.frames = []) :
    updateFrameTime euler c pa s = some (pa, s, [], []) := by
  simp [updateFrameTime, h]

theorem editKfp_noFrames (euler : Vec3 → Vec3 → Vec3 → Vec3)
    (rotCols : Vec3 → Vec3 × Vec3) (pt : Option Bool) (pe te ue re : Option Vec3)
    (pa : Path) (s : EState) (h : pa.frames = []) :
    editKeyframeProperties euler rotCols pt pe te ue re pa s = some (pa, s, [], []) := by
  simp [editKeyframeProperties, h]

theorem moveToCamera_noFrames (cam : Camera) (c : Bool) (pa : Path) (s : EState)
    (h : pa.frames = []) :
    moveToCamera cam c pa s = some (pa, s, [], []) := by
  simp [moveToCamera, h]

theorem u32pred_succ_le (n : ℕ) : u32pred (n + 1) ≤ n := by
  unfold u32pred
  have e : n + 1 + (2 ^ 32 - 1) = n + 2 ^ 32 := by omega
  rw [e, Nat.add_mod_right]
  exact Nat.mod_le n (2 ^ 32)

theorem rotStep_fst_length (rotCols : Vec3 → Vec3 × Vec3) (i : ℕ) (pv : Vec3)
    (re : Option Vec3) (pa : Path) (s1 : EState) :
    ((rotStep rotCols i pv re pa s1).1).frames.length = pa.frames.length := by
  cases re <;> simp [rotStep, Path.setFrameTarget, Path.setFrameUp, setAt_length]

theorem rotStep_snd_active (rotCols : Vec3 → Vec3 × Vec3) (i : ℕ) (pv : Vec3)
    (re : Option Vec3) (pa : Path) (s1 : EState) :
    ((rotStep rotCols i pv re pa s1).2).mActiveFrame = s1.mActiveFrame := by
  cases re <;> simp [rotStep]

theorem deleteFrame_inv (euler : Vec3 → Vec3 → Vec3 → Vec3) (c : Bool) (pa : Path)
    (s : EState) (hP : pa.frames = [] ∨ s.mActiveFrame < pa.frames.length) :
    ∃ pa' s' e w, deleteFrame euler c pa s = some (pa', s', e, w) ∧
      (pa'.frames = [] ∨ s'.mActiveFrame < pa'.frames.length) := by
  rcases hP with h | h
  · exact ⟨pa, s, [], [], deleteFrame_noFrames euler c pa s h, Or.inl h⟩
  have hpos : 0 < pa.frames.length := Nat.lt_of_le_of_lt (Nat.zero_le _) h
  cases c with
  | false =>
    exact ⟨pa, s, [], [Widget.removeFrameButton], by simp [deleteFrame, hpos], Or.inr h⟩
  | true =>
    rcases hrem : (Path.removeKeyFrame pa s.mActiveFrame).frames.length with _ | n
    · refine ⟨Path.removeKeyFrame pa s.mActiveFrame,
        { s with mActiveFrame := min (u32pred 0) s.mActiveFrame },
        [Ev.keyframeCountChanged], [Widget.removeFrameButton],
        by simp [deleteFrame, hpos, hrem], Or.inl (List.length_eq_zero.mp hrem)⟩
    · have hlt : min (u32pred (n + 1)) s.mActiveFrame < n + 1 :=
        Nat.lt_succ_of_le (le_trans (Nat.min_le_left _ _) (u32pred_succ_le n))
      obtain ⟨kf2, hkf2⟩ := exists_get?_of_lt
        (Path.removeKeyFrame pa s.mActiveFrame).frames (by rw [hrem]; exact hlt)
      have hsa := setActiveFrame_eq euler (Path.removeKeyFrame pa s.mActiveFrame)
        { s with mActiveFrame := min (u32pred (n + 1)) s.mActiveFrame }
        (min (u32pred (n + 1)) s.mActiveFrame) kf2 hkf2
      refine ⟨Path.removeKeyFrame pa s.mActiveFrame,
        { s with
          mActiveFrame := min (u32pred (n + 1)) s.mActiveFrame
          mFrameTime := kf2.time
          mActiveFrameRot := euler kf2.position kf2.target kf2.up },
        [Ev.keyframeCountChanged, Ev.frameChanged], [Widget.removeFrameButton],
        by simp [deleteFrame, hpos, hrem, hsa], Or.inr (by rw [hrem]; exact hlt)⟩

theorem updateFrameTime_inv (euler : Vec3 → Vec3 → Vec3 → Vec3) (c : Bool) (pa : Path)
    (s : EState) (hP : pa.frames = [] ∨ s.mActiveFrame < pa.frames.length) :
    ∃ pa' s' e w, updateFrameTime euler c pa s = some (pa', s', e, w) ∧
      (pa'.frames = [] ∨ s'.mActiveFrame < pa'.frames.length) := by
  rcases hP with h | h
  · exact ⟨pa, s, [], [], updateFrameTime_noFrames euler c pa s h, Or.inl h⟩
  have hpos : 0 < pa.frames.length := Nat.lt_of_le_of_lt (Nat.zero_le _) h
  cases c with
  | false =>
    exact ⟨pa, s, [], [Widget.updateTimeButton], by simp [updateFrameTime, hpos],
      Or.inr h⟩
  | true =>
    obtain ⟨kf, hkf⟩ := exists_get?_of_lt pa.frames h
    have hst : Path.setFrameTime pa s.mActiveFrame s.mFrameTime =
        ({ pa with frames := (Path.insertSorted { kf with time := s.mFrameTime }
            (pa.frames.eraseIdx s.mActiveFrame)).1 },
         (Path.insertSorted { kf with time := s.mFrameTime }
            (pa.frames.eraseIdx s.mActiveFrame)).2) := by
      unfold Path.setFrameTime
      rw [hkf]
    have hg : ({ pa with frames := (Path.insertSorted { kf with time := s.mFrameTime }
        (pa.frames.eraseIdx s.mActiveFrame)).1 } : Path).getKeyFrame?
        (Path.insertSorted { kf with time := s.mFrameTime }
          (pa.frames.eraseIdx s.mActiveFrame)).2 =
        some { kf with time := s.mFrameTime } :=
      insertSorted_get { kf with time := s.mFrameTime } (pa.frames.eraseIdx s.mActiveFrame)
    have hsa := setActiveFrame_eq euler
      { pa with frames := (Path.insertSorted { kf with time := s.mFrameTime }
          (pa.frames.eraseIdx s.mActiveFrame)).1 }
      { s with mActiveFrame := (Path.insertSorted { kf with time := s.mFrameTime }
          (pa.frames.eraseIdx s.mActiveFrame)).2 }
      (Path.insertSorted { kf with time := s.mFrameTime }
          (pa.frames.eraseIdx s.mActiveFrame)).2
      { kf with time := s.mFrameTime } hg
    refine ⟨{ pa with frames := (Path.insertSorted { kf with time := s.mFrameTime }
        (pa.frames.eraseIdx s.mActiveFrame)).1 },
      { s with
        mActiveFrame := (Path.insertSorted { kf with time := s.mFrameTime }
          (pa.frames.eraseIdx s.mActiveFrame)).2
        mActiveFrameRot := euler kf.position kf.target kf.up },
      [Ev.keyframeCountChanged, Ev.frameChanged], [Widget.updateTimeButton],
      by simp [updateFrameTime, hpos, hst, hsa], Or.inr ?_⟩
    exact get?_some_lt hg

theorem editKfp_inv (euler : Vec3 → Vec3 → Vec3 → Vec3) (rotCols : Vec3 → Vec3 × Vec3)
    (pt : Option Bool) (pe te ue re : Option Vec3) (pa : Path) (s : EState)
    (hP : pa.frames = [] ∨ s.mActiveFrame < pa.frames.length) :
    ∃ pa' s' e w, editKeyframeProperties euler rotCols pt pe te ue re pa s =
      some (pa', s', e, w) ∧
      (pa'.frames = [] ∨ s'.mActiveFrame < pa'.frames.length) := by
  rcases hP with h | h
  · exact ⟨pa, s, [], [], editKfp_noFrames euler rotCols pt pe te ue re pa s h, Or.inl h⟩
  obtain ⟨kf, hkf⟩ := exists_get?_of_lt pa.frames h
  obtain ⟨kf3, hkf3⟩ := exists_get?_of_lt
    (upStep s.mActiveFrame ue (tgtStep s.mActiveFrame te
      (posStep s.mActiveFrame (pt.getD s.mPreserveRotation) kf pe pa))).frames
    (by rw [steps_length]; exact h)
  have heq := editKfp_eq euler rotCols pt pe te ue re pa s kf kf3 hkf hkf3
  refine ⟨_, _, _, _, heq, Or.inr ?_⟩
  rw [rotStep_fst_length, steps_length, rotStep_snd_active]
  have hact : ∀ b : Bool, ((if b
      then { s with
             mPreserveRotation := pt.getD s.mPreserveRotation
             mActiveFrameRot := euler kf3.position kf3.target kf3.up }
      else { s with mPreserveRotation := pt.getD s.mPreserveRotation }) :
      EState).mActiveFrame = s.mActiveFrame := by
    intro b
    cases b <;> rfl
  rw [hact]
  exact h

theorem moveToCamera_eq (cam : Camera) (c : Bool) (pa : Path) (s : EState) :
    moveToCamera cam c pa s =
      some (if 0 < pa.frames.length then
              (if c then
                (Path.setFrameUp (Path.setFrameTarget
                    (Path.setFramePosition pa s.mActiveFrame cam.position)
                    s.mActiveFrame cam.target) s.mActiveFrame cam.upVector,
                 s, [Ev.frameChanged], [Widget.moveToCameraButton])
               else (pa, s, [], [Widget.moveToCameraButton]))
            else (pa, s, [], [])) := by
  by_cases hl : 0 < pa.frames.length <;> cases c <;> simp [moveToCamera, hl]

theorem renderTail_isSome (euler : Vec3 → Vec3 → Vec3 → Vec3)
    (rotCols : Vec3 → Vec3 × Vec3) (cam : Camera) (inp : Inputs) (pa : Path) (s : EState)
    (hP : pa.frames = [] ∨ s.mActiveFrame < pa.frames.length) :
    (renderTail euler rotCols cam inp pa s).isSome = true := by
  obtain ⟨pa4, s3, e3, w3, hd, hP1⟩ := deleteFrame_inv euler inp.removeClicked pa s hP
  have hP2 : pa4.frames = [] ∨
      ({ s3 with mFrameTime := inp.timeEdit.getD s3.mFrameTime }).mActiveFrame <
        pa4.frames.length := by
    simpa using hP1
  obtain ⟨pa5, s5, e4, w4, hu, hP3⟩ := updateFrameTime_inv euler inp.updateTimeClicked
    pa4 { s3 with mFrameTime := inp.timeEdit.getD s3.mFrameTime } hP2
  obtain ⟨pa6, s6, e5, w5, he, hP4⟩ := editKfp_inv euler rotCols inp.preserveToggle
    inp.posEdit inp.targetEdit inp.upEdit inp.rotEdit pa5 s5 hP3
  simp only [renderTail, hd, hu, he, moveToCamera_eq, Option.bind_eq_bind,
    Option.some_bind]
  simp

/-- C5: rendering with an empty path performs no invalid-index keyframe access —
the render pass succeeds (`isSome`, where `none` would mean an out-of-range
`getKeyFrame`) for every input, because every per-keyframe widget is guarded by
a `count > 0` check; and (unless Add Frame was clicked, which legitimately makes
the count positive mid-frame) none of the frame-dependent widgets — frame
selector, Remove Frame, Update Current Frame Time, the keyframe-property editor,
Move Frame to Camera — is drawn. -/
theorem render_emptyPath_safe (euler : Vec3 → Vec3 → Vec3 → Vec3)
    (rotCols : Vec3 → Vec3 × Vec3) (cam : Camera) (inp : Inputs) (pa : Path) (s : EState)
    (h : pa.frames = []) :
    (render euler rotCols cam inp pa s).isSome = true ∧
    (inp.addClicked = false →
      ∀ pa7 s7 evs ws, render euler rotCols cam inp pa s = some (pa7, s7, evs, ws) →
        Widget.frameSelector ∉ ws ∧ Widget.removeFrameButton ∉ ws ∧
        Widget.updateTimeButton ∉ ws ∧ Widget.preserveBox ∉ ws ∧
        Widget.positionVar ∉ ws ∧ Widget.targetVar ∉ ws ∧ Widget.upVar ∉ ws ∧
        Widget.rotationVar ∉ ws ∧ Widget.moveToCameraButton ∉ ws) := by
  obtain ⟨nm, lp, fr⟩ := pa
  simp only [Path.frames] at h
  subst h
  cases hclose : inp.closeClicked with
  | true =>
    constructor
    · simp [render, hclose]
    · intro _ pa7 s7 evs ws hw
      simp only [render, hclose, if_true, Option.some.injEq, Prod.mk.injEq] at hw
      obtain ⟨-, -, -, hws⟩ := hw
      subst hws
      decide
  | false =>
    cases hadd : inp.addClicked with
    | false =>
      have hrender : render euler rotCols cam inp ⟨nm, lp, []⟩ s =
          some (⟨inp.nameEdit.getD nm, inp.loopEdit.getD lp, []⟩,
                { s with mFrameTime := inp.timeEdit.getD s.mFrameTime },
                [],
                [Widget.pushWindow, Widget.closeButton, Widget.separatorW,
                 Widget.pathNameBox, Widget.loopBox, Widget.addFrameButton,
                 Widget.separatorW, Widget.frameTimeVar, Widget.separatorW,
                 Widget.popWindow]) := by
        simp [render, renderTail, hclose, hadd, editActiveFrameID_noFrames,
          addFrame_notClicked, deleteFrame_noFrames, updateFrameTime_noFrames,
          editKfp_noFrames, moveToCamera_noFrames]
      constructor
      · rw [hrender]
        rfl
      · intro _ pa7 s7 evs ws hw
        rw [hrender] at hw
        simp only [Option.some.injEq, Prod.mk.injEq] at hw
        obtain ⟨-, -, -, hws⟩ := hw
        subst hws
        decide
    | true =>
      refine ⟨?_, fun hfalse => ?_⟩
      · have hP : (⟨inp.nameEdit.getD nm, inp.loopEdit.getD lp,
            [⟨s.mFrameTime, ⟨0, 0, 0⟩, ⟨0, 0, 1⟩, ⟨0, 1, 0⟩⟩]⟩ : Path).frames = [] ∨
            ({ s with
               mActiveFrame := 0
               mActiveFrameRot := euler ⟨0, 0, 0⟩ ⟨0, 0, 1⟩ ⟨0, 1, 0⟩ } :
              EState).mActiveFrame <
            (⟨inp.nameEdit.getD nm, inp.loopEdit.getD lp,
              [⟨s.mFrameTime, ⟨0, 0, 0⟩, ⟨0, 0, 1⟩, ⟨0, 1, 0⟩⟩]⟩ : Path).frames.length :=
          Or.inr (by simp)
        obtain ⟨⟨pa7, s7, etail, wtail⟩, hr⟩ := Option.isSome_iff_exists.mp
          (renderTail_isSome euler rotCols cam inp _ _ hP)
        simp [render, hclose, hadd, editActiveFrameID_noFrames, addFrame_nil, hr]
      · exact absurd hfalse (by decide)

/-- Witness for C5 at a concrete empty path with an idle input frame. -/
theorem render_emptyPath_safe_witness :
    paW0.frames = [] ∧
    ((render eul0 rc0 cam0 inpNone paW0 st0).isSome = true ∧
     (inpNone.addClicked = false →
      ∀ pa7 s7 evs ws, render eul0 rc0 cam0 inpNone paW0 st0 = some (pa7, s7, evs, ws) →
        Widget.frameSelector ∉ ws ∧ Widget.removeFrameButton ∉ ws ∧
        Widget.updateTimeButton ∉ ws ∧ Widget.preserveBox ∉ ws ∧
        Widget.positionVar ∉ ws ∧ Widget.targetVar ∉ ws ∧ Widget.upVar ∉ ws ∧
        Widget.rotationVar ∉ ws ∧ Widget.moveToCameraButton ∉ ws)) :=
  ⟨rfl, render_emptyPath_safe eul0 rc0 cam0 inpNone paW0 st0 rfl⟩

end FalcorPathEditor
